import Mathlib

/-!
Verification of the authentication and session-token subsystem of the
webadmin repository (src/auth.go, src/handlers.go, src/models.go), as a
shallow embedding: Go strings in token position are modeled by the
inductive TokenString, SQL tables by lists of rows, time by Unix seconds
as Int, and fallible operations by Except or Option.
-/

namespace Webadmin

/-- Process-wide JWT signing secret (src/auth.go line 9). -/
def jwtSecretString : String := "your-secret-key-change-in-production"

/-- Payload of a well-formed JWT produced by this codebase: the three
custom claims user_id, username, role plus the registered iat and exp
claims (src/auth.go, type Claims). When the custom claims are absent from
the encoded token they decode to the Go zero values 0 and the empty
string, which is how a refresh token (registered claims only) is
represented here. -/
structure JWTPayload where
  userID : Int
  username : String
  role : String
  issuedAt : Int
  expiresAt : Int
deriving DecidableEq, Repr

/-- Model of a Go string in token position: either a well-formed JWT
carrying a payload together with the secret it was signed with (HS256 is
the only algorithm the code ever uses, so the secret determines the
signature), or any other string. -/
inductive TokenString where
  | signed (payload : JWTPayload) (secret : String)
  | malformed (s : String)
deriving DecidableEq, Repr

/-- Whether the modeled Go string is the empty string; a well-formed JWT
is never empty. -/
def TokenString.isEmptyStr : TokenString → Bool
  | .malformed "" => true
  | _ => false

/-- Claims value returned by validateToken (src/auth.go, type Claims). -/
structure Claims where
  userID : Int
  username : String
  role : String
  issuedAt : Int
  expiresAt : Int
deriving DecidableEq, Repr

/-- Error outcomes of token validation; the code does not distinguish
these further (golang-jwt/v5 parse errors are all handled alike). -/
inductive JWTError where
  | malformedToken
  | signatureInvalid
  | expired
deriving DecidableEq, Repr

/-- Shallow embedding of validateToken (src/auth.go lines 51-66).
jwt.ParseWithClaims verifies the HS256 signature against jwtSecret and
the registered exp claim against the current time; under the golang-jwt
v5 default validator a token is unexpired iff now is strictly before exp,
and iat is not verified by default. -/
def validateToken (t : TokenString) (now : Int) : Except JWTError Claims :=
  match t with
  | .malformed _ => .error .malformedToken
  | .signed p secret =>
    if secret ≠ jwtSecretString then .error .signatureInvalid
    else if p.expiresAt ≤ now then .error .expired
    else .ok ⟨p.userID, p.username, p.role, p.issuedAt, p.expiresAt⟩

/-- User record (src/models.go, type User). -/
structure User where
  id : Int
  username : String
  email : String
  name : String
  avatar : String
  role : String
  status : String
  password : String
  createdAt : String
  updatedAt : String
deriving DecidableEq, Repr

/-- Deterministic model of bcrypt.GenerateFromPassword: hashing is an
injective tagging of the password, so that bcryptCompare succeeds on
exactly the hash/password pairs bcrypt.CompareHashAndPassword accepts. -/
def bcryptHash (password : String) : String := "$2a$10$" ++ password

/-- Model of bcrypt.CompareHashAndPassword; true models the nil error. -/
def bcryptCompare (hash password : String) : Bool := hash == bcryptHash password

/-- Shallow embedding of generateAccessToken (src/auth.go lines 19-33):
claims are the user id, username and role, iat = now,
exp = now + 24 hours, signed HS256 with the process secret. Signing an
HMAC token with a fixed byte-slice key cannot fail, so the error return
of the Go function is never taken in this model. -/
def generateAccessToken (user : User) (now : Int) : TokenString :=
  .signed ⟨user.id, user.username, user.role, now, now + 24 * 3600⟩ jwtSecretString

/-- Shallow embedding of generateRefreshToken (src/auth.go lines 36-48):
a JWT carrying only the registered claims iat = now and
exp = now + 7 days; the custom user_id, username and role claims are
absent, hence decode to the Go zero values 0, empty, empty. -/
def generateRefreshToken (now : Int) : TokenString :=
  .signed ⟨0, "", "", now, now + 7 * 24 * 3600⟩ jwtSecretString

/-- Row of the refresh_tokens table (src/models.go): user_id, token,
expires_at. -/
structure RefreshTokenRow where
  userID : Int
  token : TokenString
  expiresAt : Int
deriving DecidableEq, Repr

/-- Database error outcomes distinguished by the code paths under study:
noRows models sql.ErrNoRows, unavailable models any other store
failure. -/
inductive DBError where
  | noRows
  | unavailable
deriving DecidableEq, Repr

/-- Shallow embedding of getUserByUsername (src/models.go lines 170-182):
SELECT with WHERE username = ? AND status = active; none models
sql.ErrNoRows. Usernames are unique, so the first match is the row. -/
def getUserByUsername (users : List User) (username : String) : Option User :=
  users.find? (fun u => u.username == username && u.status == "active")

/-- Shallow embedding of getUserByID (src/models.go lines 184-196): the
lookup by id has no status filter. -/
def getUserByID (users : List User) (id : Int) : Option User :=
  users.find? (fun u => u.id == id)

/-- Shallow embedding of saveRefreshToken (src/models.go lines 310-315).
The boolean ok is the oracle for whether the INSERT succeeds; a failing
store leaves the table unchanged. -/
def saveRefreshToken (ok : Bool) (rdb : List RefreshTokenRow) (userID : Int)
    (token : TokenString) (expiresAt : Int) : Except DBError (List RefreshTokenRow) :=
  if ok then .ok (rdb ++ [⟨userID, token, expiresAt⟩]) else .error .unavailable

/-- Shallow embedding of validateRefreshToken (src/models.go lines
317-335): look the row up by its token string; an absent row gives
sql.ErrNoRows with no state change; a present row whose expires_at is
strictly in the past (time.Now().After) is deleted and sql.ErrNoRows
returned; otherwise the owning user id is returned. The second component
is the refresh_tokens table after the call. -/
def validateRefreshToken (rdb : List RefreshTokenRow) (token : TokenString)
    (now : Int) : Except DBError Int × List RefreshTokenRow :=
  match rdb.find? (fun r => r.token == token) with
  | none => (.error .noRows, rdb)
  | some r =>
    if r.expiresAt < now then
      (.error .noRows, rdb.filter (fun q => !(q.token == token)))
    else
      (.ok r.userID, rdb)

/-- Shallow embedding of deleteRefreshToken (src/models.go lines
337-340): DELETE of every row with the given token string. -/
def deleteRefreshToken (rdb : List RefreshTokenRow) (token : TokenString) :
    List RefreshTokenRow :=
  rdb.filter (fun q => !(q.token == token))

/-- Direct existence check on the refresh_tokens table: whether a row
with the given token string is present. -/
def refreshTokenExists (rdb : List RefreshTokenRow) (token : TokenString) : Bool :=
  (rdb.find? (fun r => r.token == token)).isSome

/-- Seeded default admin user (src/models.go, createDefaultUser, lines
146-167): username ng-matero, bcrypt hash of the password ng-matero,
role admin, status active; the first AUTOINCREMENT id is 1 and ts stands
for the CURRENT_TIMESTAMP strings. -/
def defaultUser (ts : String) : User :=
  { id := 1, username := "ng-matero", email := "admin@ng-matero.com",
    name := "Administrator", avatar := "/images/avatar-default.jpg",
    role := "admin", status := "active", password := bcryptHash "ng-matero",
    createdAt := ts, updatedAt := ts }

/-- Shallow embedding of createDefaultUser (src/models.go lines 146-167):
the default admin is inserted only into an empty users table. -/
def createDefaultUser (ts : String) (users : List User) : List User :=
  if users.isEmpty then [defaultUser ts] else users

/-- Login request body (src/models.go, type LoginRequest). -/
structure LoginRequest where
  username : String
  password : String
  rememberMe : Bool
deriving DecidableEq, Repr

/-- Refresh request body; the field models the raw refresh_token
string. -/
structure RefreshRequest where
  refreshToken : TokenString
deriving DecidableEq, Repr

/-- Token response body (src/models.go, type Token); refreshToken = none
models the refresh_token field being omitted (omitempty on the empty
string). -/
structure Token where
  accessToken : TokenString
  tokenType : String
  expiresIn : Int
  refreshToken : Option TokenString
deriving DecidableEq, Repr

/-- Outcome of an auth handler, tagged by the kind of fiber status it is
sent with. -/
inductive AuthResponse where
  | badRequest (msg : String)
  | unauthorized (msg : String)
  | internalError (msg : String)
  | ok (tok : Token)
deriving DecidableEq, Repr

/-- HTTP status code an AuthResponse is sent with. -/
def AuthResponse.status : AuthResponse → Nat
  | .badRequest _ => 400
  | .unauthorized _ => 401
  | .internalError _ => 500
  | .ok _ => 200

/-- Shallow embedding of loginHandler (src/handlers.go lines 72-131),
after body parsing: empty-field check, active-user lookup (a miss is
sql.ErrNoRows, answered 401 Invalid credentials), bcrypt comparison
(mismatch answered identically), access-token issuance, then optional
refresh-token issuance and persistence where a failed save drops the
refresh token from the response but leaves the login successful. Returns
the response and the refresh_tokens table after the call. -/
def loginHandler (users : List User) (rdb : List RefreshTokenRow)
    (req : LoginRequest) (now : Int) (saveOk : Bool) :
    AuthResponse × List RefreshTokenRow :=
  if req.username == "" || req.password == "" then
    (.badRequest "Username and password are required", rdb)
  else
    match getUserByUsername users req.username with
    | none => (.unauthorized "Invalid credentials", rdb)
    | some user =>
      if !(bcryptCompare user.password req.password) then
        (.unauthorized "Invalid credentials", rdb)
      else
        let accessToken := generateAccessToken user now
        if req.rememberMe then
          let refreshToken := generateRefreshToken now
          match saveRefreshToken saveOk rdb user.id refreshToken (now + 7 * 24 * 3600) with
          | .ok rdb2 =>
            (.ok ⟨accessToken, "Bearer", 86400, some refreshToken⟩, rdb2)
          | .error _ =>
            (.ok ⟨accessToken, "Bearer", 86400, none⟩, rdb)
        else
          (.ok ⟨accessToken, "Bearer", 86400, none⟩, rdb)

/-- Shallow embedding of refreshHandler (src/handlers.go lines 147-190):
empty check, refresh-token validation (with its lazy-delete side effect),
re-fetch of the user record by id, then a fresh access token. -/
def refreshHandler (users : List User) (rdb : List RefreshTokenRow)
    (req : RefreshRequest) (now : Int) : AuthResponse × List RefreshTokenRow :=
  if req.refreshToken.isEmptyStr then
    (.badRequest "Refresh token is required", rdb)
  else
    match validateRefreshToken rdb req.refreshToken now with
    | (.error _, rdb2) => (.unauthorized "Invalid or expired refresh token", rdb2)
    | (.ok userID, rdb2) =>
      match getUserByID users userID with
      | none => (.unauthorized "User not found", rdb2)
      | some user =>
        (.ok ⟨generateAccessToken user now, "Bearer", 86400, none⟩, rdb2)

/-- Identity attached to the request context by the auth middleware via
c.Locals with keys userID, username, role. -/
structure IdentityContext where
  userID : Int
  username : String
  role : String
deriving DecidableEq, Repr

/-- Outcome of a middleware: reject with a status and error message, or
pass control to the next stage carrying a value. -/
inductive GateResult (α : Type) where
  | reject (status : Nat) (msg : String)
  | next (a : α)
deriving DecidableEq, Repr

/-- The literal word Bearer as a Go string (not a well-formed JWT). -/
def bearerWord : TokenString := .malformed "Bearer"

/-- Shallow embedding of authMiddleware (src/handlers.go lines 15-45).
The Authorization header is modeled as none when absent or empty,
otherwise as the list of its space-separated words, each word a
TokenString. -/
def authMiddleware (header : Option (List TokenString)) (now : Int) :
    GateResult IdentityContext :=
  match header with
  | none => .reject 401 "Authorization header required"
  | some parts =>
    match parts with
    | [scheme, token] =>
      if scheme ≠ bearerWord then
        .reject 401 "Invalid authorization header format"
      else
        match validateToken token now with
        | .error _ => .reject 401 "Invalid or expired token"
        | .ok claims => .next ⟨claims.userID, claims.username, claims.role⟩
    | _ => .reject 401 "Invalid authorization header format"

/-- Shallow embedding of adminMiddleware (src/handlers.go lines 48-56):
the role local read by c.Locals is nil (none) when the auth middleware
did not run; the nil check short-circuits before the type assertion, so
the function is total. -/
def adminMiddleware (role : Option String) : GateResult Unit :=
  match role with
  | none => .reject 403 "Admin access required"
  | some r => if r ≠ "admin" then .reject 403 "Admin access required" else .next ()

/-- Disabled user record used in concrete scenarios. -/
def disabledUser : User :=
  { id := 7, username := "carol", email := "carol@example.com", name := "Carol",
    avatar := "", role := "user", status := "disabled",
    password := bcryptHash "carolpw", createdAt := "", updatedAt := "" }

/-- Helper: when no user with the requested username is active (covering
both a username absent from the store and one held only by disabled
users), the filtered lookup misses. -/
theorem getUserByUsername_eq_none_of_no_active (users : List User) (username : String)
    (h : ∀ u ∈ users, u.username = username → u.status ≠ "active") :
    getUserByUsername users username = none := by
  unfold getUserByUsername
  apply List.find?_eq_none.mpr
  intro u hu
  intro hcond
  simp only [Bool.and_eq_true, beq_iff_eq] at hcond
  exact h u hu hcond.1 hcond.2

/-- Helper: after deleting every row holding a token string, a lookup for
that string misses. -/
theorem find?_deleteRefreshToken_eq_none (rdb : List RefreshTokenRow) (tok : TokenString) :
    (rdb.filter (fun q => !(q.token == tok))).find? (fun r => r.token == tok) = none := by
  apply List.find?_eq_none.mpr
  intro r hr
  have hmem := List.mem_filter.mp hr
  simp only [Bool.not_eq_true'] at hmem
  simp [hmem.2]

/-- C1: for every login request with non-empty username and password, if
no active user in the store carries the requested username (covering both
an absent user and a disabled one), or the active user found by the
lookup has a stored hash that does not match the password, login responds
with the identical 401 Invalid credentials outcome and leaves the
refresh-token table unchanged, never revealing which factor failed. -/
theorem login_invalid_credentials_uniform
    (users : List User) (rdb : List RefreshTokenRow) (req : LoginRequest)
    (now : Int) (saveOk : Bool)
    (hu : req.username ≠ "") (hp : req.password ≠ "")
    (h : (∀ u ∈ users, u.username = req.username → u.status ≠ "active") ∨
         (∃ u, getUserByUsername users req.username = some u ∧
               bcryptCompare u.password req.password = false)) :
    loginHandler users rdb req now saveOk =
      (.unauthorized "Invalid credentials", rdb) ∧
    (loginHandler users rdb req now saveOk).1.status = 401 := by
  have hcond : (req.username == "" || req.password == "") = false := by
    simp [hu, hp]
  rcases h with h1 | ⟨u, hlook, hcmp⟩
  · have hn := getUserByUsername_eq_none_of_no_active users req.username h1
    refine ⟨?_, ?_⟩ <;> simp [loginHandler, hcond, hn, AuthResponse.status]
  · refine ⟨?_, ?_⟩ <;> simp [loginHandler, hcond, hlook, hcmp, AuthResponse.status]

/-- Witness for C1: against the seeded store, an unknown username and a
wrong password for the seeded user both give 401 Invalid credentials. -/
theorem login_invalid_credentials_uniform_witness :
    (loginHandler [defaultUser ""] [] ⟨"nobody", "pw", false⟩ 0 true =
        (.unauthorized "Invalid credentials", []) ∧
      (loginHandler [defaultUser ""] [] ⟨"nobody", "pw", false⟩ 0 true).1.status = 401) ∧
    (loginHandler [defaultUser ""] [] ⟨"ng-matero", "wrong", false⟩ 0 true =
        (.unauthorized "Invalid credentials", []) ∧
      (loginHandler [defaultUser ""] [] ⟨"ng-matero", "wrong", false⟩ 0 true).1.status = 401) :=
  ⟨login_invalid_credentials_uniform [defaultUser ""] [] ⟨"nobody", "pw", false⟩ 0 true
      (by decide) (by decide) (Or.inl (by decide)),
   login_invalid_credentials_uniform [defaultUser ""] [] ⟨"ng-matero", "wrong", false⟩ 0 true
      (by decide) (by decide) (Or.inr ⟨defaultUser "", by decide, by decide⟩)⟩

/-- C3: round-trip — an access token issued for user u at time now
validates successfully at any time t strictly before its expiry
(now + 24 hours) under the same process secret, and the resulting claims
carry exactly the id, username and role of u. -/
theorem access_token_round_trip (u : User) (now t : Int)
    (h : t < now + 24 * 3600) :
    ∃ c, validateToken (generateAccessToken u now) t = .ok c ∧
      c.userID = u.id ∧ c.username = u.username ∧ c.role = u.role := by
  refine ⟨⟨u.id, u.username, u.role, now, now + 24 * 3600⟩, ?_, rfl, rfl, rfl⟩
  unfold validateToken generateAccessToken
  simp
  omega

/-- Witness for C3 at the seeded admin, issuance time 0, validation one
second before expiry. -/
theorem access_token_round_trip_witness :
    ∃ c, validateToken (generateAccessToken (defaultUser "") 0) 86399 = .ok c ∧
      c.userID = (defaultUser "").id ∧ c.username = (defaultUser "").username ∧
      c.role = (defaultUser "").role :=
  access_token_round_trip (defaultUser "") 0 86399 (by decide)

/-- C2 counterexample: the refresh flow does mint a fresh access token
for a disabled user. With a store holding one disabled user and one
stored, unexpired refresh token owned by that user, refreshHandler
answers 200 with a new access token for the disabled user, because
getUserByID applies no status filter. -/
theorem refresh_mints_token_for_disabled_user :
    (refreshHandler [disabledUser]
        [⟨7, generateRefreshToken 0, 604800⟩]
        ⟨generateRefreshToken 0⟩ 1000).1 =
      .ok ⟨generateAccessToken disabledUser 1000, "Bearer", 86400, none⟩ ∧
    disabledUser.status = "disabled" := by
  decide

/-- C2 amended: disabled users can never log in, even with the correct
password, because the login lookup filters on active status; the refresh
flow, however, re-fetches the current user record with no status check
and mints a fresh access token for whatever user the stored, unexpired
refresh token points to — including a disabled user — with the claims
reflecting the current record. -/
theorem disabled_user_login_vs_refresh
    (users : List User) (rdb : List RefreshTokenRow) (now : Int) (saveOk : Bool)
    (lreq : LoginRequest) (rreq : RefreshRequest) (row : RefreshTokenRow) (u : User) :
    (lreq.username ≠ "" → lreq.password ≠ "" →
      (∀ v ∈ users, v.username = lreq.username → v.status = "disabled") →
      (loginHandler users rdb lreq now saveOk).1 =
        .unauthorized "Invalid credentials") ∧
    (rreq.refreshToken.isEmptyStr = false →
      rdb.find? (fun r => r.token == rreq.refreshToken) = some row →
      ¬ row.expiresAt < now →
      getUserByID users row.userID = some u →
      (refreshHandler users rdb rreq now).1 =
        .ok ⟨generateAccessToken u now, "Bearer", 86400, none⟩) := by
  constructor
  · intro hu hp hdis
    have hn : getUserByUsername users lreq.username = none := by
      apply getUserByUsername_eq_none_of_no_active
      intro v hv hname
      rw [hdis v hv hname]
      decide
    have hcond : (lreq.username == "" || lreq.password == "") = false := by
      simp [hu, hp]
    simp [loginHandler, hcond, hn]
  · intro hne hfind hexp hget
    simp [refreshHandler, hne, validateRefreshToken, hfind, hexp, hget]

/-- Witness for C2 amended: the disabled user carol cannot log in with
the correct password, yet with a stored unexpired refresh token the
refresh flow mints her a fresh access token. -/
theorem disabled_user_login_vs_refresh_witness :
    (loginHandler [disabledUser] [] ⟨"carol", "carolpw", false⟩ 0 true).1 =
      .unauthorized "Invalid credentials" ∧
    (refreshHandler [disabledUser] [⟨7, generateRefreshToken 0, 604800⟩]
        ⟨generateRefreshToken 0⟩ 1000).1 =
      .ok ⟨generateAccessToken disabledUser 1000, "Bearer", 86400, none⟩ :=
  ⟨(disabled_user_login_vs_refresh [disabledUser] [] 0 true
      ⟨"carol", "carolpw", false⟩ ⟨generateRefreshToken 0⟩
      ⟨7, generateRefreshToken 0, 604800⟩ disabledUser).1
      (by decide) (by decide) (by decide),
   (disabled_user_login_vs_refresh [disabledUser] [⟨7, generateRefreshToken 0, 604800⟩] 1000 true
      ⟨"carol", "carolpw", false⟩ ⟨generateRefreshToken 0⟩
      ⟨7, generateRefreshToken 0, 604800⟩ disabledUser).2
      (by decide) (by decide) (by decide) (by decide)⟩

/-- C4: validating a stored refresh token whose expires_at is in the past
returns not-found and deletes the row as a side effect, so revalidating
the same string against the resulting table is again not-found and the
direct existence check shows it absent; validating a string with no
stored row returns not-found with the table unchanged. -/
theorem stale_refresh_token_pruned
    (rdb : List RefreshTokenRow) (tok : TokenString) (now : Int) :
    (∀ row, rdb.find? (fun r => r.token == tok) = some row →
      row.expiresAt < now →
      (validateRefreshToken rdb tok now).1 = .error .noRows ∧
      (validateRefreshToken (validateRefreshToken rdb tok now).2 tok now).1 =
        .error .noRows ∧
      refreshTokenExists (validateRefreshToken rdb tok now).2 tok = false) ∧
    (rdb.find? (fun r => r.token == tok) = none →
      validateRefreshToken rdb tok now = (.error .noRows, rdb)) := by
  constructor
  · intro row hfind hexp
    have hval : validateRefreshToken rdb tok now =
        (.error .noRows, rdb.filter (fun q => !(q.token == tok))) := by
      simp [validateRefreshToken, hfind, hexp]
    have hgone := find?_deleteRefreshToken_eq_none rdb tok
    refine ⟨by rw [hval], ?_, ?_⟩
    · rw [hval]
      simp [validateRefreshToken, hgone]
    · rw [hval]
      simp [refreshTokenExists, hgone]
  · intro hnone
    simp [validateRefreshToken, hnone]

/-- Witness for C4 with a concrete expired row and a concrete absent
string. -/
theorem stale_refresh_token_pruned_witness :
    (validateRefreshToken [⟨7, generateRefreshToken 0, 10⟩]
        (generateRefreshToken 0) 1000).1 = .error .noRows ∧
    (validateRefreshToken
        (validateRefreshToken [⟨7, generateRefreshToken 0, 10⟩]
          (generateRefreshToken 0) 1000).2
        (generateRefreshToken 0) 1000).1 = .error .noRows ∧
    refreshTokenExists
        (validateRefreshToken [⟨7, generateRefreshToken 0, 10⟩]
          (generateRefreshToken 0) 1000).2
        (generateRefreshToken 0) = false ∧
    validateRefreshToken [] (generateRefreshToken 0) 1000 =
      (.error .noRows, []) := by
  have h := stale_refresh_token_pruned [⟨7, generateRefreshToken 0, 10⟩]
    (generateRefreshToken 0) 1000
  have hrow := h.1 ⟨7, generateRefreshToken 0, 10⟩ (by decide) (by decide)
  exact ⟨hrow.1, hrow.2.1, hrow.2.2,
    (stale_refresh_token_pruned [] (generateRefreshToken 0) 1000).2 (by decide)⟩

/-- C5: the authentication gate rejects an absent Authorization header
with 401 Authorization header required and never reaches the handler;
rejects a header that does not split into exactly two words whose first
word is Bearer with 401 Invalid authorization header format; rejects a
token the validator refuses with the single generic 401 Invalid or
expired token; and only on validator success passes control onward,
attaching the identity context built from the userID, username and role
claims. -/
theorem auth_gate_cases (parts : List TokenString) (tok : TokenString)
    (now : Int) (c : Claims) :
    (authMiddleware none now = .reject 401 "Authorization header required") ∧
    (parts.length ≠ 2 ∨ parts.head? ≠ some bearerWord →
      authMiddleware (some parts) now =
        .reject 401 "Invalid authorization header format") ∧
    ((∃ e, validateToken tok now = .error e) →
      authMiddleware (some [bearerWord, tok]) now =
        .reject 401 "Invalid or expired token") ∧
    (validateToken tok now = .ok c →
      authMiddleware (some [bearerWord, tok]) now =
        .next ⟨c.userID, c.username, c.role⟩) := by
  refine ⟨rfl, ?_, ?_, ?_⟩
  · intro h
    match parts with
    | [] => rfl
    | [a] => rfl
    | [a, b] =>
      have ha : a ≠ bearerWord := by
        rcases h with h | h
        · simp at h
        · simpa using h
      simp [authMiddleware, ha]
    | a :: b :: x :: rest => rfl
  · rintro ⟨e, he⟩
    simp [authMiddleware, he, bearerWord]
  · intro hok
    simp [authMiddleware, hok, bearerWord]

/-- Witness for C5: one concrete instance per gate outcome. -/
theorem auth_gate_cases_witness :
    authMiddleware none 0 = .reject 401 "Authorization header required" ∧
    authMiddleware (some [bearerWord]) 0 =
      .reject 401 "Invalid authorization header format" ∧
    authMiddleware (some [bearerWord, TokenString.malformed "xyz"]) 0 =
      .reject 401 "Invalid or expired token" ∧
    authMiddleware (some [bearerWord, generateAccessToken (defaultUser "") 0]) 100 =
      .next ⟨1, "ng-matero", "admin"⟩ :=
  ⟨(auth_gate_cases [] (TokenString.malformed "xyz") 0
      ⟨1, "ng-matero", "admin", 0, 86400⟩).1,
   (auth_gate_cases [bearerWord] (TokenString.malformed "xyz") 0
      ⟨1, "ng-matero", "admin", 0, 86400⟩).2.1 (by decide),
   (auth_gate_cases [bearerWord] (TokenString.malformed "xyz") 0
      ⟨1, "ng-matero", "admin", 0, 86400⟩).2.2.1 ⟨.malformedToken, rfl⟩,
   (auth_gate_cases [bearerWord] (generateAccessToken (defaultUser "") 0) 100
      ⟨1, "ng-matero", "admin", 0, 86400⟩).2.2.2 (by rfl)⟩

/-- C6: the authorization gate rejects with 403 Admin access required
whenever the role entry of the identity context is absent (the
authentication gate never ran, so the local is nil) or is any string
other than exactly admin; the gate never passes control to the handler in
these cases, and being a total function it fails closed on the absent
case instead of crashing. -/
theorem admin_gate_fails_closed (role : Option String)
    (h : ∀ r, role = some r → r ≠ "admin") :
    adminMiddleware role = .reject 403 "Admin access required" := by
  match role with
  | none => rfl
  | some r =>
    have hr := h r rfl
    simp [adminMiddleware, hr]

/-- Witness for C6: absent context and the non-admin role user are both
rejected. -/
theorem admin_gate_fails_closed_witness :
    adminMiddleware none = .reject 403 "Admin access required" ∧
    adminMiddleware (some "user") = .reject 403 "Admin access required" :=
  ⟨admin_gate_fails_closed none (by intro r hr; cases hr),
   admin_gate_fails_closed (some "user")
     (by intro r hr; injection hr with h2; rw [h2.symm]; decide)⟩

/-- C7: a refresh token is itself a JWT signed with the same process
secret, so within its 7-day lifetime validateToken accepts it and the
absent custom claims decode to userID 0 and empty username and role;
consequently presenting a fresh refresh token as a bearer credential
passes the authentication gate, which attaches the zero-value
identity. -/
theorem refresh_token_passes_auth_gate (now t : Int)
    (h : t < now + 7 * 24 * 3600) :
    validateToken (generateRefreshToken now) t =
      .ok ⟨0, "", "", now, now + 7 * 24 * 3600⟩ ∧
    authMiddleware (some [bearerWord, generateRefreshToken now]) t =
      .next ⟨0, "", ""⟩ := by
  have hval : validateToken (generateRefreshToken now) t =
      .ok ⟨0, "", "", now, now + 7 * 24 * 3600⟩ := by
    unfold validateToken generateRefreshToken
    simp
    omega
  exact ⟨hval, by simp [authMiddleware, hval, bearerWord]⟩

/-- Witness for C7 one second before the refresh token expires. -/
theorem refresh_token_passes_auth_gate_witness :
    validateToken (generateRefreshToken 0) 604799 =
      .ok ⟨0, "", "", 0, 604800⟩ ∧
    authMiddleware (some [bearerWord, generateRefreshToken 0]) 604799 =
      .next ⟨0, "", ""⟩ :=
  refresh_token_passes_auth_gate 0 604799 (by decide)

/-- C8: when the credentials are correct and rememberMe is set but
persisting the refresh token fails (the saveOk oracle is false), login
still responds 200 with the access token, token_type Bearer and
expires_in 86400, with the refresh_token field omitted, and the
refresh-token table is unchanged: persistence failure never fails the
overall login. -/
theorem login_survives_save_failure
    (users : List User) (rdb : List RefreshTokenRow) (req : LoginRequest)
    (now : Int) (u : User)
    (hu : req.username ≠ "") (hp : req.password ≠ "")
    (hlook : getUserByUsername users req.username = some u)
    (hcmp : bcryptCompare u.password req.password = true)
    (hrm : req.rememberMe = true) :
    loginHandler users rdb req now false =
      (.ok ⟨generateAccessToken u now, "Bearer", 86400, none⟩, rdb) ∧
    (loginHandler users rdb req now false).1.status = 200 := by
  have hcond : (req.username == "" || req.password == "") = false := by
    simp [hu, hp]
  refine ⟨?_, ?_⟩ <;>
    simp [loginHandler, hcond, hlook, hcmp, hrm, saveRefreshToken, AuthResponse.status]

/-- Witness for C8: the seeded admin logs in with rememberMe while the
store refuses the INSERT. -/
theorem login_survives_save_failure_witness :
    loginHandler [defaultUser ""] [] ⟨"ng-matero", "ng-matero", true⟩ 0 false =
      (.ok ⟨generateAccessToken (defaultUser "") 0, "Bearer", 86400, none⟩, []) ∧
    (loginHandler [defaultUser ""] [] ⟨"ng-matero", "ng-matero", true⟩ 0 false).1.status = 200 :=
  login_survives_save_failure [defaultUser ""] [] ⟨"ng-matero", "ng-matero", true⟩ 0
    (defaultUser "") (by decide) (by decide) (by decide) (by decide) (by decide)

/-- C9: an access token issued at now carries exp = now + 24 hours;
validateToken rejects it as expired at every instant strictly after that
expiry, and accepts it one second before, returning the full claims. -/
theorem access_token_expiry_boundary (u : User) (now t : Int) :
    (now + 24 * 3600 < t →
      validateToken (generateAccessToken u now) t = .error .expired) ∧
    validateToken (generateAccessToken u now) (now + 24 * 3600 - 1) =
      .ok ⟨u.id, u.username, u.role, now, now + 24 * 3600⟩ := by
  constructor
  · intro h
    unfold validateToken generateAccessToken
    simp
    omega
  · unfold validateToken generateAccessToken
    simp

/-- Witness for C9 at issuance time 0, checked one second after and one
second before the 24-hour expiry. -/
theorem access_token_expiry_boundary_witness :
    validateToken (generateAccessToken (defaultUser "") 0) 86401 =
      .error .expired ∧
    validateToken (generateAccessToken (defaultUser "") 0) 86399 =
      .ok ⟨1, "ng-matero", "admin", 0, 86400⟩ :=
  ⟨(access_token_expiry_boundary (defaultUser "") 0 86401).1 (by decide),
   (access_token_expiry_boundary (defaultUser "") 0 86399).2⟩

/-- C10 counterexample: against a store containing exactly the user
seeded by createDefaultUser — whose username is ng-matero with password
ng-matero, not admin with adminpwd — the login request
username admin, password adminpwd, rememberMe true is rejected with 401
Invalid credentials, so the claimed 200 response with tokens does not
occur. -/
theorem seeded_login_admin_adminpwd_rejected :
    loginHandler (createDefaultUser "" []) [] ⟨"admin", "adminpwd", true⟩ 0 true =
      (.unauthorized "Invalid credentials", []) ∧
    (loginHandler (createDefaultUser "" []) [] ⟨"admin", "adminpwd", true⟩ 0 true).1.status
      = 401 := by
  decide

/-- C10 amended: against a store containing exactly the seeded default
admin (username ng-matero, password ng-matero), the login request
username ng-matero, password ng-matero, rememberMe true succeeds with
status 200, a non-empty access_token, token_type Bearer,
expires_in 86400 and a non-empty refresh_token, when the refresh-token
INSERT succeeds. -/
theorem seeded_login_ng_matero_succeeds :
    (loginHandler (createDefaultUser "" []) [] ⟨"ng-matero", "ng-matero", true⟩ 0 true).1 =
      .ok ⟨generateAccessToken (defaultUser "") 0, "Bearer", 86400,
            some (generateRefreshToken 0)⟩ ∧
    (generateAccessToken (defaultUser "") 0).isEmptyStr = false ∧
    (generateRefreshToken 0).isEmptyStr = false ∧
    (loginHandler (createDefaultUser "" []) [] ⟨"ng-matero", "ng-matero", true⟩ 0 true).1.status
      = 200 := by
  decide

end Webadmin
